import Mathlib

/-!
Verification of the front-end WebSocket command handler of the
hotreload JupyterLab extension (`old_version/index.ts`).

The handler receives JSON command messages over a WebSocket, locates the
target notebook panel in the notebook tracker, applies the requested
mutation to the notebook model, polls (`waitFor`) until the mutation is
observable, and sends a reply.  A separate smart-reload routine reloads a
notebook from disk while preserving execution state.

The embedding below models the notebook tracker as a list of panels, a
panel's cell list as a Lean list, and the asynchronous handler as a pure
function from (environment, message, tracker state) to (new tracker
state, list of sent replies, number of `waitFor` polling loops entered).
Mutations on the shared notebook model are applied synchronously, so a
`waitFor` poll evaluates its predicate on the current state: it succeeds
exactly when the predicate holds at that moment.  External effects
(opening documents, kernel execution, disk reads) are supplied by an
explicit environment record.
-/

namespace Hotreload

/-- UTF-8 aware "ends with" test on strings, modelling
`String.prototype.endsWith` (list-suffix comparison of the characters). -/
def strEndsWith (s suffix : String) : Bool :=
  List.isSuffixOf suffix.data s.data

/-- Character-level "starts with" test on strings, modelling
`String.prototype.startsWith`. -/
def strStartsWith (s pre : String) : Bool :=
  List.isPrefixOf pre.data s.data

/-- Remove every (left-to-right, non-overlapping) occurrence of the
character sequence `-cell`, modelling the global regex replacement of
`-cell` by the empty string in `String.prototype.replace`. -/
def stripCellOccurrences : List Char → List Char
  | '-' :: 'c' :: 'e' :: 'l' :: 'l' :: rest => stripCellOccurrences rest
  | c :: cs => c :: stripCellOccurrences cs
  | [] => []

/-- The characters after the last `/`, modelling
`path.split('/').pop()`. -/
def lastSegment (s : String) : String :=
  ⟨(go s.data.reverse)⟩
where
  /-- Take characters of the reversed string up to the first `/`, then
  restore the original order. -/
  go (l : List Char) : List Char :=
    (aux l).reverse
  /-- Take characters up to (excluding) the first `/`. -/
  aux : List Char → List Char
    | [] => []
    | c :: cs => if c = '/' then [] else c :: aux cs

/-- JavaScript truthiness of an optional string field of the decoded JSON
message: `undefined` and the empty string are falsy. -/
def strTruthy : Option String → Bool
  | none => false
  | some s => s ≠ ""

/-- How an optional string renders inside a template literal:
`undefined` prints as the text `undefined`. -/
def optDisplay : Option String → String
  | some s => s
  | none => "undefined"

/-- One entry of a cell output (`IOutput`): its `output_type`, its
`data` dictionary (media type to string payload), and any further
payload (such as a stream's `text`), which the processing below never
touches. -/
structure Output where
  output_type : String
  data : List (String × String)
  text : Option String := none
deriving DecidableEq, Repr

/-- A cell of the notebook model: stable identifier, kind, source text,
execution count and outputs (meaningful for code cells), and whether the
cell carries the `jp-mod-executed` marker class. -/
structure CellModel where
  id : String
  cell_type : String
  source : String
  executionCount : Option Int
  outputs : List Output
  wasExecuted : Bool := false
deriving DecidableEq, Repr

/-- An open notebook panel tracked by the `INotebookTracker`: its
context path, whether its model object is non-null, its cell list
(widgets and shared model cells, identified), whether a kernel is
attached to its session context, and its viewport state. -/
structure Panel where
  path : String
  modelPresent : Bool
  cells : List CellModel
  hasKernel : Bool
  scrollTop : Int
  activeCellIndex : Int
deriving DecidableEq, Repr

/-- A decoded incoming WebSocket message (the JSON envelope fields the
handler reads).  `position` is part of the envelope but is never read by
the handler. -/
structure WsMessage where
  action : Option String := none
  path : Option String := none
  cell_id : Option String := none
  content : Option String := none
  cell_type : Option String := none
  waitForSave : Bool := false
  position : Option Int := none
deriving DecidableEq, Repr

/-- The cell record assembled by the `get-cells` branch. -/
structure CellData where
  cell_id : String
  cell_type : String
  content : String
  outputs : Option (List Output) := none
  execution_count : Option (Option Int) := none
deriving DecidableEq, Repr

/-- An outgoing WebSocket message (reply) with every field any branch of
the handler ever sets; unset JSON fields are `none`. -/
structure Reply where
  action : String
  path : Option String := none
  cell_id : Option String := none
  success : Option Bool := none
  error : Option String := none
  position : Option Nat := none
  index : Option Nat := none
  status : Option String := none
  error_type : Option String := none
  error_message : Option String := none
  message : Option String := none
  cells : Option (List CellData) := none
  outputs : Option (List Output) := none
  execution_count : Option (Option Int) := none
deriving DecidableEq, Repr

/-- The placeholder string substituted for an image payload:
the template literal
`<image_data_truncated: $\x7bmimeType\x7d, original_size=$\x7bn\x7d bytes>`. -/
def placeholderFor (mimeType : String) (n : Nat) : String :=
  "<image_data_truncated: " ++ mimeType ++ ", original_size=" ++ toString n ++ " bytes>"

/-- Processing of a single output by `processCellOutputsForLLM`: for
`display_data` and `execute_result` outputs, every `data` entry whose
media type starts with `image/` has its payload replaced by the
placeholder carrying the media type and the payload's UTF-8 byte length
(`new TextEncoder().encode(s).length`); all other outputs and entries
are returned unchanged (the source deep-copies, which is the identity
here). -/
def processOutput (o : Output) : Output :=
  if o.output_type = "display_data" ∨ o.output_type = "execute_result" then
    { o with data := o.data.map fun p =>
        if strStartsWith p.1 "image/" then (p.1, placeholderFor p.1 p.2.utf8ByteSize) else p }
  else o

/-- `processCellOutputsForLLM` from the source: map `processOutput` over
the output list (an empty or missing list yields `[]`). -/
def processCellOutputsForLLM (outputs : List Output) : List Output :=
  outputs.map processOutput

/-- Outcome of `CodeCell.execute(cellWidget, sessionContext)`, supplied
by the environment: the promise resolves `true` (having stored the given
outputs and execution count on the cell model), resolves `false`, or
rejects with an error message. -/
inductive ExecOutcome where
  | ok (outs : List Output) (cnt : Option Int)
  | returnedFalse
  | threw (msg : String)
deriving DecidableEq, Repr

/-- External behaviour of the disk/viewport side of a reload:
the cell list the document holds after `context.revert()` re-reads the
file, the viewport values the revert leaves behind, and whether the
guarded steps after the snapshot throw. -/
structure ReloadEnv where
  diskCells : List CellModel
  revertScroll : Int
  revertActive : Int
  failAfterSnapshot : Bool
deriving DecidableEq, Repr

/-- Environment of external effects for one handled message. -/
structure Env where
  openReady : Bool
  openThrow : Option String
  execOutcome : ExecOutcome
  freshCellId : String
  reload : ReloadEnv
deriving DecidableEq, Repr

/-- Result of handling one message: the tracker state afterwards, the
replies sent on the socket in order, and how many `waitFor` polling
loops were entered along the way. -/
structure HandlerResult where
  state : List Panel
  replies : List Reply
  polls : Nat
deriving DecidableEq, Repr

/-- `findInTracker` from the source: the first tracked panel satisfying
the predicate (also the behaviour of `panels.find`). -/
def findInTracker (tracker : List Panel) (pred : Panel → Bool) : Option Panel :=
  tracker.find? pred

/-- The panel-lookup predicate of the message handler:
`p.context.path === data.path || p.context.path.endsWith(data.path)`,
where a missing `data.path` compares as the string `undefined` inside
`endsWith` and matches nothing under strict equality. -/
def panelMatches (mpath : Option String) (p : Panel) : Bool :=
  match mpath with
  | some s => p.path == s || strEndsWith p.path s
  | none => strEndsWith p.path "undefined"

/-- The cell-lookup predicate `w.model.id === data.cell_id`: a missing
`cell_id` matches no cell. -/
def cellIdMatches (mcid : Option String) (c : CellModel) : Bool :=
  match mcid with
  | some cid => c.id == cid
  | none => false

/-- First index and cell whose id matches, modelling the
`for` loops over `notebook.widgets` and `notebook.widgets.find`. -/
def findCellIdx (mcid : Option String) : List CellModel → Option (Nat × CellModel)
  | [] => none
  | c :: cs =>
    if cellIdMatches mcid c then some (0, c)
    else (findCellIdx mcid cs).map fun p => (p.1 + 1, p.2)

/-- Replace the first panel satisfying the predicate by the image of the
function (mutating the found panel in place). -/
def updateFirstWith (pred : Panel → Bool) (f : Panel → Panel) : List Panel → List Panel
  | [] => []
  | p :: ps => if pred p then f p :: ps else p :: updateFirstWith pred f ps

/-- Remove the first panel satisfying the predicate (closing the found
panel). -/
def removeFirst (pred : Panel → Bool) : List Panel → List Panel
  | [] => []
  | p :: ps => if pred p then ps else p :: removeFirst pred ps

/-- The reply action name when no panel is found:
the action with every `-cell` removed and `-failed` appended, or
`action-failed` when the action field is falsy. -/
def notFoundAction (a : Option String) : String :=
  match a with
  | some s => if s ≠ "" then String.mk (stripCellOccurrences s.data) ++ "-failed" else "action-failed"
  | none => "action-failed"

/-- The failure reply sent when the target notebook panel is not found. -/
def notFoundReply (msg : WsMessage) : Reply :=
  { action := notFoundAction msg.action, path := msg.path, success := some false,
    error := some "Target notebook is not open or not found." }

/-- Per-cell snapshot taken by `smartReloadNotebook` before the revert. -/
structure CellSnapshot where
  executionCount : Option Int
  outputs : List Output
  isCodeCell : Bool
deriving DecidableEq, Repr

/-- Snapshot one cell: code cells keep execution count and outputs;
all other cells record `null` and `[]`. -/
def snapshotCell (c : CellModel) : CellSnapshot :=
  if c.cell_type = "code" then
    { executionCount := c.executionCount, outputs := c.outputs, isCodeCell := true }
  else
    { executionCount := none, outputs := [], isCodeCell := false }

/-- A freshly created cell widget carries no `jp-mod-executed` class. -/
def clearExec (c : CellModel) : CellModel :=
  { c with wasExecuted := false }

/-- The effect of a plain `context.revert()`: the document re-reads its
cell list from disk (fresh widgets, no executed marker) and the viewport
takes whatever values the revert leaves behind. -/
def plainRevert (env : ReloadEnv) (p : Panel) : Panel :=
  { p with cells := env.diskCells.map clearExec,
           scrollTop := env.revertScroll,
           activeCellIndex := env.revertActive }

/-- Restoration of one freshly loaded cell at position `i` from the
snapshot list: only when the snapshot entry exists, was a code cell, and
the new cell is a code cell; the execution count is reapplied when it
was non-null, the outputs are reapplied (clear, then add all) when
non-empty, and the executed marker is added when both were present. -/
def restoreCell (states : List CellSnapshot) (i : Nat) (c : CellModel) : CellModel :=
  match states.get? i with
  | none => c
  | some s =>
    if s.isCodeCell ∧ c.cell_type = "code" then
      let c1 := match s.executionCount with
        | some k => { c with executionCount := some k }
        | none => c
      let c2 := if s.outputs.length > 0 then { c1 with outputs := s.outputs } else c1
      if s.executionCount.isSome ∧ s.outputs.length > 0 then
        { c2 with wasExecuted := true }
      else c2
    else c

/-- Restoration pass over the freshly loaded cell list (the indexed
`forEach`). -/
def restoreCells (states : List CellSnapshot) (i : Nat) : List CellModel → List CellModel
  | [] => []
  | c :: cs => restoreCell states i c :: restoreCells states (i + 1) cs

/-- `smartReloadNotebook` from the source: snapshot viewport, active
cell and per-cell execution state, revert from disk, restore per-cell
state positionally, restore the scroll offset, and restore the active
cell index when it is in range; on any failure after the snapshot, fall
back to a plain revert. -/
def smartReloadNotebook (env : ReloadEnv) (p : Panel) : Panel :=
  let scrollTop := p.scrollTop
  let activeCellIndex := p.activeCellIndex
  let cellStates := p.cells.map snapshotCell
  if env.failAfterSnapshot then
    plainRevert env p
  else
    let reverted := plainRevert env p
    let restored := restoreCells cellStates 0 reverted.cells
    let p2 := { reverted with cells := restored, scrollTop := scrollTop }
    if 0 ≤ activeCellIndex ∧ activeCellIndex < (restored.length : Int) then
      { p2 with activeCellIndex := activeCellIndex }
    else p2

/-- `handleReloadAction` from the source: look the panel up by the last
path segment of the requested path and smart-reload it; send nothing. -/
def handleReloadAction (path : String) (env : ReloadEnv) (st : List Panel) : List Panel :=
  match findInTracker st (fun p => strEndsWith p.path (lastSegment path)) with
  | some _ => updateFirstWith (fun p => strEndsWith p.path (lastSegment path)) (smartReloadNotebook env) st
  | none => st

/-- The `open-notebook` branch: `docManager.open` may throw; otherwise a
single `waitFor` poll decides whether the panel became tracked within
the deadline.  The tracker registration itself happens asynchronously on
the host side and is not part of this handler's state change. -/
def handleOpen (env : Env) (msg : WsMessage) (st : List Panel) : HandlerResult :=
  match env.openThrow with
  | some e =>
    ⟨st, [{ action := "notebook-opened", path := msg.path, success := some false,
            error := some ("Failed to open document: " ++ e) }], 0⟩
  | none =>
    if env.openReady then
      ⟨st, [{ action := "notebook-opened", path := msg.path, success := some true }], 1⟩
    else
      ⟨st, [{ action := "notebook-opened", path := msg.path, success := some false,
              error := some "Timeout: Notebook panel did not become active in the tracker." }], 1⟩

/-- The `save` branch: `context.save()` leaves the cell list unchanged;
a reply is sent only when `waitForSave` is truthy. -/
def handleSave (msg : WsMessage) (st : List Panel) : HandlerResult :=
  ⟨st,
   if msg.waitForSave then [{ action := "saved", path := msg.path, success := some true }] else [],
   0⟩

/-- The cell record built for one cell by the `get-cells` branch. -/
def mkCellData (c : CellModel) : CellData :=
  if c.cell_type = "code" then
    { cell_id := c.id, cell_type := c.cell_type, content := c.source,
      outputs := some (processCellOutputsForLLM c.outputs),
      execution_count := some c.executionCount }
  else
    { cell_id := c.id, cell_type := c.cell_type, content := c.source }

/-- The `get-cells` branch. -/
def handleGetCells (msg : WsMessage) (st : List Panel) (panel : Panel) : HandlerResult :=
  if panel.modelPresent = false then
    ⟨st, [{ action := "cells-data", path := msg.path, success := some false,
            error := some "Notebook model not found" }], 0⟩
  else
    ⟨st, [{ action := "cells-data", path := msg.path,
            cells := some (panel.cells.map mkCellData) }], 0⟩

/-- The predicate polled by the `insert-cell` branch: the cell list has
grown past the insertion position and the cell there has source
strictly equal to `data.content` (a missing `content` compares unequal
to any string, as `===` against `undefined` does). -/
def insertVerified (cells2 : List CellModel) (position : Nat) (content : Option String) : Bool :=
  match cells2.get? position with
  | some cm =>
    match content with
    | some c => cm.source == c
    | none => false
  | none => false

/-- The predicate polled by the `replace-cell` branch: the mutated cell
reads back equal to `data.content || ""`. -/
def replaceVerified (cells2 : List CellModel) (i : Nat) (content : Option String) : Bool :=
  match cells2.get? i with
  | some cm => cm.source == content.getD ""
  | none => false

/-- The `insert-cell` branch: the insertion position is always the cell
count before insertion; the verification poll checks that the cell at
that position has source strictly equal to `data.content`; the save
after verification does not change the cell list. -/
def handleInsert (env : Env) (msg : WsMessage) (st : List Panel) (panel : Panel) : HandlerResult :=
  if panel.modelPresent = false then
    ⟨st, [{ action := "cell-inserted", path := msg.path, success := some false,
            error := some "Notebook model not found" }], 0⟩
  else
    let position := panel.cells.length
    let newCell : CellModel :=
      { id := env.freshCellId,
        cell_type := if msg.cell_type = some "markdown" then "markdown" else "code",
        source := msg.content.getD "",
        executionCount := none, outputs := [], wasExecuted := false }
    let cells2 := panel.cells ++ [newCell]
    let st2 := updateFirstWith (panelMatches msg.path) (fun p => { p with cells := cells2 }) st
    if insertVerified cells2 position msg.content then
      ⟨st2, [{ action := "cell-inserted", path := msg.path, success := some true,
               cell_id := some env.freshCellId, position := some position }], 1⟩
    else
      ⟨st2, [{ action := "cell-inserted", path := msg.path, success := some false,
               error := some "Failed to verify cell widget creation on the frontend." }], 1⟩

/-- The `execute-cell` branch: an acknowledgement is sent first, then
the widget lookup poll, then (for code cells) the kernel-attach poll and
the execution itself. -/
def handleExecute (env : Env) (msg : WsMessage) (st : List Panel) (panel : Panel) : HandlerResult :=
  let ack : Reply :=
    { action := "cell-execution-acknowledged", path := msg.path, cell_id := msg.cell_id }
  match findCellIdx msg.cell_id panel.cells with
  | none =>
    ⟨st, [ack,
          { action := "cell-executed", path := msg.path, cell_id := msg.cell_id,
            status := some "error", error_type := some "ExecutionError",
            error_message := some ("Cell widget with ID " ++ optDisplay msg.cell_id ++ " not found") }], 1⟩
  | some (i, c) =>
    if c.cell_type = "markdown" then
      ⟨st, [ack,
            { action := "cell-executed", path := msg.path, cell_id := msg.cell_id,
              status := some "success", outputs := some [] }], 1⟩
    else if c.cell_type = "code" then
      if panel.hasKernel = false then
        ⟨st, [ack,
              { action := "cell-executed", path := msg.path, cell_id := msg.cell_id,
                status := some "error", error_type := some "ExecutionError",
                error_message := some "Kernel not available (timed out)" }], 2⟩
      else
        match env.execOutcome with
        | .ok outs cnt =>
          let panel2 := { panel with cells := panel.cells.set i { c with outputs := outs, executionCount := cnt } }
          ⟨updateFirstWith (panelMatches msg.path) (fun _ => panel2) st,
           [ack,
            { action := "cell-executed", path := msg.path, cell_id := msg.cell_id,
              status := some "success", outputs := some (processCellOutputsForLLM outs),
              execution_count := some cnt }], 2⟩
        | .returnedFalse =>
          ⟨st, [ack,
                { action := "cell-executed", path := msg.path, cell_id := msg.cell_id,
                  status := some "error", error_type := some "ExecutionError",
                  error_message := some "Cell execution failed" }], 2⟩
        | .threw m =>
          ⟨st, [ack,
                { action := "cell-executed", path := msg.path, cell_id := msg.cell_id,
                  status := some "error", error_type := some "ExecutionError",
                  error_message := some ("Cell execution error: " ++ m) }], 2⟩
    else
      ⟨st, [ack], 1⟩

/-- The `replace-cell` branch (reached only with truthy `path` and
`cell_id`): it re-runs the panel lookup with the same predicate, finds
the cell by id, sets its source, and polls until the source reads back
equal to `data.content || ""`. -/
def handleReplace (msg : WsMessage) (st : List Panel) : HandlerResult :=
  match findInTracker st (panelMatches msg.path) with
  | none =>
    ⟨st, [{ action := "cell-replaced", path := msg.path, cell_id := msg.cell_id,
            success := some false, error := some "Notebook not found or not open" }], 0⟩
  | some targetPanel =>
    if targetPanel.modelPresent = false then
      ⟨st, [{ action := "cell-replaced", path := msg.path, cell_id := msg.cell_id,
              success := some false, error := some "Notebook model is null" }], 0⟩
    else
      match findCellIdx msg.cell_id targetPanel.cells with
      | some (i, c) =>
        let cells2 := targetPanel.cells.set i { c with source := msg.content.getD "" }
        let st2 := updateFirstWith (panelMatches msg.path) (fun p => { p with cells := cells2 }) st
        if replaceVerified cells2 i msg.content then
          ⟨st2, [{ action := "cell-replaced", path := msg.path, cell_id := msg.cell_id,
                   success := some true }], 1⟩
        else
          ⟨st2, [{ action := "cell-replaced", path := msg.path, cell_id := msg.cell_id,
                   success := some false,
                   error := some "Failed to verify cell content replacement." }], 1⟩
      | none =>
        ⟨st, [{ action := "cell-replaced", path := msg.path, cell_id := msg.cell_id,
                success := some false,
                error := some ("Cell with ID " ++ optDisplay msg.cell_id ++ " not found") }], 0⟩

/-- The `delete-cell` branch (reached only with truthy `path` and
`cell_id`): it re-runs the panel lookup, finds the cell by id, deletes
it at that index, and polls until no cell with the id remains. -/
def handleDelete (msg : WsMessage) (st : List Panel) : HandlerResult :=
  match findInTracker st (panelMatches msg.path) with
  | none =>
    ⟨st, [{ action := "cell-deleted", path := msg.path, cell_id := msg.cell_id,
            success := some false, error := some "Notebook not found or not open" }], 0⟩
  | some targetPanel =>
    if targetPanel.modelPresent = false then
      ⟨st, [{ action := "cell-deleted", path := msg.path, cell_id := msg.cell_id,
              success := some false, error := some "Notebook model is null" }], 0⟩
    else
      match findCellIdx msg.cell_id targetPanel.cells with
      | some (i, _c) =>
        let cells2 := targetPanel.cells.eraseIdx i
        let st2 := updateFirstWith (panelMatches msg.path) (fun p => { p with cells := cells2 }) st
        let deleted : Bool := cells2.all fun cm => !(cellIdMatches msg.cell_id cm)
        if deleted then
          ⟨st2, [{ action := "cell-deleted", path := msg.path, cell_id := msg.cell_id,
                   success := some true, index := some i }], 1⟩
        else
          ⟨st2, [{ action := "cell-deleted", path := msg.path, cell_id := msg.cell_id,
                   success := some false,
                   error := some "Failed to verify cell deletion from model." }], 1⟩
      | none =>
        ⟨st, [{ action := "cell-deleted", path := msg.path, cell_id := msg.cell_id,
                success := some false,
                error := some ("Cell with ID " ++ optDisplay msg.cell_id ++ " not found") }], 0⟩

/-- The `close-notebook-tab` branch (reached only with truthy `path`):
save then close the found panel. -/
def handleClose (msg : WsMessage) (st : List Panel) : HandlerResult :=
  match findInTracker st (panelMatches msg.path) with
  | some _ =>
    ⟨removeFirst (panelMatches msg.path) st,
     [{ action := "notebook-tab-closed", path := msg.path, success := some true,
        message := some "Notebook tab saved and closed successfully." }], 0⟩
  | none =>
    ⟨st, [{ action := "notebook-tab-closed", path := msg.path, success := some false,
            error := some "Notebook tab not found or not open." }], 0⟩

/-- Dispatch over the action field, in the order of the else-if chain of
the source, for a message whose target panel was found.  Branch guards
mirror the truthiness tests of the source; a message matching no branch
(including `replace-cell`, `delete-cell` and `close-notebook-tab` with a
falsy required field) produces no reply. -/
def dispatch (env : Env) (msg : WsMessage) (st : List Panel) (panel : Panel) : HandlerResult :=
  if msg.action = some "save" then handleSave msg st
  else if msg.action = some "get-cells" then handleGetCells msg st panel
  else if msg.action = some "insert-cell" then handleInsert env msg st panel
  else if msg.action = some "execute-cell" then handleExecute env msg st panel
  else if msg.action = some "replace-cell" ∧ strTruthy msg.path = true ∧ strTruthy msg.cell_id = true then
    handleReplace msg st
  else if msg.action = some "delete-cell" ∧ strTruthy msg.path = true ∧ strTruthy msg.cell_id = true then
    handleDelete msg st
  else if msg.action = some "close-notebook-tab" ∧ strTruthy msg.path = true then
    handleClose msg st
  else if (msg.action = some "reload" ∧ strTruthy msg.path = true) ∨
          (strTruthy msg.path = true ∧ strTruthy msg.action = false) then
    ⟨handleReloadAction (msg.path.getD "") env.reload st, [], 0⟩
  else
    ⟨st, [], 0⟩

/-- The `ws.onmessage` handler: the `open-notebook` branch runs before
the panel lookup; any other message answers an immediate failure when no
tracked panel matches the path, and otherwise dispatches on the action. -/
def onMessage (env : Env) (msg : WsMessage) (st : List Panel) : HandlerResult :=
  if msg.action = some "open-notebook" ∧ strTruthy msg.path = true then
    handleOpen env msg st
  else
    match findInTracker st (panelMatches msg.path) with
    | none => ⟨st, [notFoundReply msg], 0⟩
    | some panel => dispatch env msg st panel

/-- A reference specification of the output truncation, stated from the
documented behaviour, to be compared with `processCellOutputsForLLM`:
lengths and non-`data` payloads are preserved, and a `data` entry is
replaced by the placeholder built from its media type and its UTF-8 byte
length exactly when the output is a `display_data` or `execute_result`
output and the media type starts with `image/`. -/
def truncationSpec (raw processed : List Output) : Prop :=
  processed.length = raw.length ∧
  ∀ i o o2, raw.get? i = some o → processed.get? i = some o2 →
    o2.output_type = o.output_type ∧ o2.text = o.text ∧ o2.data.length = o.data.length ∧
    ∀ j q q2, o.data.get? j = some q → o2.data.get? j = some q2 →
      (((o.output_type = "display_data" ∨ o.output_type = "execute_result") ∧
          strStartsWith q.1 "image/" = true) →
        q2 = (q.1, placeholderFor q.1 q.2.utf8ByteSize)) ∧
      (¬((o.output_type = "display_data" ∨ o.output_type = "execute_result") ∧
          strStartsWith q.1 "image/" = true) →
        q2 = q)

/-- A reply has only sanitised output payloads: its `outputs` field and
the `outputs` of each entry of its `cells` field, when present, are the
image of `processCellOutputsForLLM`. -/
def replyOutputsProcessed (r : Reply) : Prop :=
  (∀ outs, r.outputs = some outs → ∃ raw, outs = processCellOutputsForLLM raw) ∧
  (∀ cds, r.cells = some cds → ∀ cd ∈ cds, ∀ outs, cd.outputs = some outs →
    ∃ raw, outs = processCellOutputsForLLM raw)

/-- Shared concrete environment for witnesses. -/
def env0 : Env :=
  { openReady := true, openThrow := none, execOutcome := .returnedFalse,
    freshCellId := "fresh-id",
    reload := { diskCells := [], revertScroll := 0, revertActive := 0, failAfterSnapshot := false } }

/-- A stream output that carries an image-typed data entry. -/
def streamImageOutput : Output :=
  { output_type := "stream", data := [("image/png", "RAW")] }

/-- A display output that carries an image-typed data entry. -/
def displayImageOutput : Output :=
  { output_type := "display_data", data := [("image/png", "PAYLOAD")] }

/-- A concrete executed code cell. -/
def cellA : CellModel :=
  { id := "cellA", cell_type := "code", source := "1+1", executionCount := some 1,
    outputs := [streamImageOutput] }

/-- A concrete executed code cell with a display-data image output. -/
def cellB : CellModel :=
  { id := "cellB", cell_type := "code", source := "plot", executionCount := some 2,
    outputs := [displayImageOutput] }

/-- A concrete open panel. -/
def panel0 : Panel :=
  { path := "dir/nb.ipynb", modelPresent := true, cells := [cellA], hasKernel := true,
    scrollTop := 5, activeCellIndex := 0 }

/-- A concrete open panel whose cell has a display-data image output. -/
def panelImg : Panel :=
  { path := "img.ipynb", modelPresent := true, cells := [cellB], hasKernel := true,
    scrollTop := 0, activeCellIndex := 0 }

/-- A concrete reload environment whose disk state has one fresh code
cell. -/
def reloadEnv1 : ReloadEnv :=
  { diskCells := [{ id := "cellA", cell_type := "code", source := "new source",
                    executionCount := none, outputs := [] }],
    revertScroll := 0, revertActive := 0, failAfterSnapshot := false }

/-- A concrete panel without an attached kernel. -/
def panelNoKernel : Panel :=
  { panel0 with hasKernel := false }

/-- A concrete delete command for a path no panel matches. -/
def msgNoTarget : WsMessage :=
  { action := some "delete-cell", path := some "missing.ipynb", cell_id := some "x" }

/-- A concrete insert command. -/
def msgInsert : WsMessage :=
  { action := some "insert-cell", path := some "nb.ipynb", content := some "42" }

/-- A concrete replace command for the existing cell. -/
def msgReplace : WsMessage :=
  { action := some "replace-cell", path := some "nb.ipynb", cell_id := some "cellA",
    content := some "new body" }

/-- A concrete delete command for the existing cell. -/
def msgDelete : WsMessage :=
  { action := some "delete-cell", path := some "nb.ipynb", cell_id := some "cellA" }

/-- A concrete delete command for an id that does not exist. -/
def msgDeleteMissing : WsMessage :=
  { action := some "delete-cell", path := some "nb.ipynb", cell_id := some "nope" }

/-- A concrete execute command for the existing cell. -/
def msgExecute : WsMessage :=
  { action := some "execute-cell", path := some "nb.ipynb", cell_id := some "cellA" }

/-- A concrete get-cells command. -/
def msgGetCells : WsMessage :=
  { action := some "get-cells", path := some "nb.ipynb" }

/-- A concrete get-cells command for the display-image panel. -/
def msgGetCellsImg : WsMessage :=
  { action := some "get-cells", path := some "img.ipynb" }

/-- A concrete reload command. -/
def msgReload : WsMessage :=
  { action := some "reload", path := some "nb.ipynb" }

/-- A concrete message with a path but no action. -/
def msgNoAction : WsMessage :=
  { path := some "nb.ipynb" }

/-- The panel-lookup predicate reads only the path, so mutating the cell
list of a panel does not change whether it matches. -/
lemma panelMatches_set_cells (mp : Option String) (p : Panel) (cs : List CellModel) :
    panelMatches mp { p with cells := cs } = panelMatches mp p := by
  cases mp <;> rfl

/-- Updating the first matching element keeps it the first match when
the update preserves the predicate. -/
lemma find?_updateFirstWith (pred : Panel → Bool) (f : Panel → Panel) (l : List Panel)
    (p : Panel) (h : l.find? pred = some p) (hf : pred (f p) = true) :
    (updateFirstWith pred f l).find? pred = some (f p) := by
  induction l with
  | nil => simp [List.find?] at h
  | cons q qs ih =>
    by_cases hq : pred q
    · rw [List.find?_cons_of_pos qs hq] at h
      obtain rfl : q = p := Option.some.inj h
      rw [updateFirstWith, if_pos hq, List.find?_cons_of_pos qs hf]
    · have hq' : pred q = false := by simp [hq]
      rw [List.find?_cons_of_neg qs (by simp [hq'])] at h
      rw [updateFirstWith, if_neg (by simp [hq']),
          List.find?_cons_of_neg (updateFirstWith pred f qs) (by simp [hq'])]
      exact ih h

/-- A successful indexed cell lookup returns the cell at that index, and
that cell matches. -/
lemma findCellIdx_some (mcid : Option String) (l : List CellModel) (i : Nat) (c : CellModel)
    (h : findCellIdx mcid l = some (i, c)) :
    l.get? i = some c ∧ cellIdMatches mcid c = true := by
  induction l generalizing i with
  | nil => simp [findCellIdx] at h
  | cons q qs ih =>
    rw [findCellIdx] at h
    by_cases hq : cellIdMatches mcid q
    · rw [if_pos hq] at h
      obtain ⟨rfl, rfl⟩ : (0 : Nat) = i ∧ q = c := by
        have := Option.some.inj h
        exact ⟨congrArg Prod.fst this, congrArg Prod.snd this⟩
      exact ⟨rfl, hq⟩
    · rw [if_neg hq] at h
      cases hfc : findCellIdx mcid qs with
      | none => rw [hfc] at h; simp at h
      | some pr =>
        rw [hfc] at h
        simp only [Option.map_some'] at h
        obtain ⟨h1, h2⟩ : pr.1 + 1 = i ∧ pr.2 = c := by
          have := Option.some.inj h
          exact ⟨congrArg Prod.fst this, congrArg Prod.snd this⟩
        subst h1; subst h2
        have := ih pr.1 (by rw [hfc])
        simpa using this

/-- Setting the found cell to a cell with a matching id keeps it the
first match. -/
lemma findCellIdx_set (mcid : Option String) (l : List CellModel) (i : Nat) (c : CellModel)
    (h : findCellIdx mcid l = some (i, c)) (c2 : CellModel)
    (hmatch : cellIdMatches mcid c2 = true) :
    findCellIdx mcid (l.set i c2) = some (i, c2) := by
  induction l generalizing i with
  | nil => simp [findCellIdx] at h
  | cons q qs ih =>
    rw [findCellIdx] at h
    by_cases hq : cellIdMatches mcid q
    · rw [if_pos hq] at h
      obtain rfl : (0 : Nat) = i := congrArg Prod.fst (Option.some.inj h)
      rw [List.set_cons_zero, findCellIdx, if_pos hmatch]
    · rw [if_neg hq] at h
      cases hfc : findCellIdx mcid qs with
      | none => rw [hfc] at h; simp at h
      | some pr =>
        rw [hfc] at h
        simp only [Option.map_some'] at h
        have hc : pr.2 = c := congrArg Prod.snd (Option.some.inj h)
        obtain rfl : pr.1 + 1 = i := congrArg Prod.fst (Option.some.inj h)
        rw [List.set_cons_succ, findCellIdx, if_neg hq,
            ih pr.1 (by rw [hfc, ← hc]) ]
        rfl

/-- Indexing into the restoration pass. -/
lemma restoreCells_get? (states : List CellSnapshot) (i j : Nat) (l : List CellModel) :
    (restoreCells states i l).get? j = (l.get? j).map (restoreCell states (i + j)) := by
  induction l generalizing i j with
  | nil => simp [restoreCells]
  | cons c cs ih =>
    cases j with
    | zero => simp [restoreCells]
    | succ j' =>
      rw [restoreCells]
      show (restoreCells states (i + 1) cs).get? j' = _
      rw [ih (i + 1) j']
      have : i + 1 + j' = i + (j' + 1) := by omega
      rw [this]
      rfl

/-- When every snapshot entry has a null execution count and no outputs,
restoring a cell is the identity. -/
lemma restoreCell_noop (states : List CellSnapshot)
    (h : ∀ s ∈ states, s.executionCount = none ∧ s.outputs = []) (i : Nat) (c : CellModel) :
    restoreCell states i c = c := by
  unfold restoreCell
  split
  · rfl
  · next s hs =>
    obtain ⟨h1, h2⟩ := h s (List.get?_mem hs)
    rw [h1, h2]
    split
    · simp
    · rfl

/-- When every snapshot entry is trivial, the restoration pass is the
identity. -/
lemma restoreCells_noop (states : List CellSnapshot)
    (h : ∀ s ∈ states, s.executionCount = none ∧ s.outputs = []) (i : Nat)
    (l : List CellModel) :
    restoreCells states i l = l := by
  induction l generalizing i with
  | nil => rfl
  | cons c cs ih => rw [restoreCells, restoreCell_noop states h, ih]

/-- A message with a definite non-open action never takes the
`open-notebook` branch. -/
lemma action_ne_open (a : String) (h : a ≠ "open-notebook") (msg : WsMessage)
    (hact : msg.action = some a) :
    ¬(msg.action = some "open-notebook" ∧ strTruthy msg.path = true) := by
  rintro ⟨h1, -⟩
  rw [hact] at h1
  exact h (Option.some.inj h1)

/-- Reduction of the handler when the target panel is not found. -/
lemma onMessage_notFound (env : Env) (msg : WsMessage) (st : List Panel)
    (hopen : ¬(msg.action = some "open-notebook" ∧ strTruthy msg.path = true))
    (hfind : findInTracker st (panelMatches msg.path) = none) :
    onMessage env msg st = ⟨st, [notFoundReply msg], 0⟩ := by
  unfold onMessage
  rw [if_neg hopen, hfind]

/-- Reduction of the handler to the dispatch when the target panel is
found. -/
lemma onMessage_dispatch (env : Env) (msg : WsMessage) (st : List Panel) (panel : Panel)
    (hopen : ¬(msg.action = some "open-notebook" ∧ strTruthy msg.path = true))
    (hfind : findInTracker st (panelMatches msg.path) = some panel) :
    onMessage env msg st = dispatch env msg st panel := by
  unfold onMessage
  rw [if_neg hopen, hfind]

/-- Dispatch reduction for `save`. -/
lemma dispatch_save (env : Env) (msg : WsMessage) (st : List Panel) (panel : Panel)
    (hact : msg.action = some "save") :
    dispatch env msg st panel = handleSave msg st := by
  unfold dispatch
  rw [hact, if_pos rfl]

/-- Dispatch reduction for `get-cells`. -/
lemma dispatch_getCells (env : Env) (msg : WsMessage) (st : List Panel) (panel : Panel)
    (hact : msg.action = some "get-cells") :
    dispatch env msg st panel = handleGetCells msg st panel := by
  unfold dispatch
  rw [hact, if_neg (by decide), if_pos rfl]

/-- Dispatch reduction for `insert-cell`. -/
lemma dispatch_insert (env : Env) (msg : WsMessage) (st : List Panel) (panel : Panel)
    (hact : msg.action = some "insert-cell") :
    dispatch env msg st panel = handleInsert env msg st panel := by
  unfold dispatch
  rw [hact, if_neg (by decide), if_neg (by decide), if_pos rfl]

/-- Dispatch reduction for `execute-cell`. -/
lemma dispatch_execute (env : Env) (msg : WsMessage) (st : List Panel) (panel : Panel)
    (hact : msg.action = some "execute-cell") :
    dispatch env msg st panel = handleExecute env msg st panel := by
  unfold dispatch
  rw [hact, if_neg (by decide), if_neg (by decide), if_neg (by decide), if_pos rfl]

/-- Dispatch reduction for `replace-cell` with truthy path and id. -/
lemma dispatch_replace (env : Env) (msg : WsMessage) (st : List Panel) (panel : Panel)
    (hact : msg.action = some "replace-cell") (hp : strTruthy msg.path = true)
    (hc : strTruthy msg.cell_id = true) :
    dispatch env msg st panel = handleReplace msg st := by
  unfold dispatch
  rw [hact, hp, hc, if_neg (by decide), if_neg (by decide), if_neg (by decide),
      if_neg (by decide), if_pos (by simp)]

/-- Dispatch reduction for `delete-cell` with truthy path and id. -/
lemma dispatch_delete (env : Env) (msg : WsMessage) (st : List Panel) (panel : Panel)
    (hact : msg.action = some "delete-cell") (hp : strTruthy msg.path = true)
    (hc : strTruthy msg.cell_id = true) :
    dispatch env msg st panel = handleDelete msg st := by
  unfold dispatch
  rw [hact, hp, hc, if_neg (by decide), if_neg (by decide), if_neg (by decide),
      if_neg (by decide), if_neg (by simp), if_pos (by simp)]

/-- Dispatch reduction for `close-notebook-tab` with truthy path. -/
lemma dispatch_close (env : Env) (msg : WsMessage) (st : List Panel) (panel : Panel)
    (hact : msg.action = some "close-notebook-tab") (hp : strTruthy msg.path = true) :
    dispatch env msg st panel = handleClose msg st := by
  unfold dispatch
  rw [hact, hp, if_neg (by decide), if_neg (by decide), if_neg (by decide),
      if_neg (by decide), if_neg (by simp), if_neg (by simp), if_pos (by simp)]

/-- Dispatch reduction for `reload` with truthy path. -/
lemma dispatch_reload (env : Env) (msg : WsMessage) (st : List Panel) (panel : Panel)
    (hact : msg.action = some "reload") (hp : strTruthy msg.path = true) :
    dispatch env msg st panel = ⟨handleReloadAction (msg.path.getD "") env.reload st, [], 0⟩ := by
  unfold dispatch
  rw [hact, hp, if_neg (by decide), if_neg (by decide), if_neg (by decide),
      if_neg (by decide), if_neg (by simp), if_neg (by simp), if_neg (by simp),
      if_pos (by simp)]

/-- Dispatch reduction for a message without an action field and a
truthy path. -/
lemma dispatch_noAction (env : Env) (msg : WsMessage) (st : List Panel) (panel : Panel)
    (hact : msg.action = none) (hp : strTruthy msg.path = true) :
    dispatch env msg st panel = ⟨handleReloadAction (msg.path.getD "") env.reload st, [], 0⟩ := by
  unfold dispatch
  rw [hact, hp, if_neg (by decide), if_neg (by decide), if_neg (by decide),
      if_neg (by decide), if_neg (by simp), if_neg (by simp), if_neg (by simp),
      if_pos (by simp [strTruthy])]

/-- The number of replies of a conditional result, when both branches
agree. -/
lemma length_ite_replies {n : Nat} (c : Prop) [Decidable c] (a b : HandlerResult)
    (ha : a.replies.length = n) (hb : b.replies.length = n) :
    (if c then a else b).replies.length = n := by
  split
  · exact ha
  · exact hb

/-- C5: a command (other than the open-notebook branch) whose path
matches no open notebook panel is answered by exactly one immediate
failure reply, the tracker state is untouched, and no `waitFor`
verification poll is entered (the `polls` field of the result is 0). -/
theorem no_target_immediate_failure (env : Env) (msg : WsMessage) (st : List Panel)
    (hopen : ¬(msg.action = some "open-notebook" ∧ strTruthy msg.path = true))
    (hfind : findInTracker st (panelMatches msg.path) = none) :
    onMessage env msg st =
      { state := st,
        replies := [{ action := notFoundAction msg.action, path := msg.path,
                      success := some false,
                      error := some "Target notebook is not open or not found." }],
        polls := 0 } :=
  onMessage_notFound env msg st hopen hfind

/-- Witness for C5 at a concrete input. -/
theorem no_target_immediate_failure_witness :
    onMessage env0 msgNoTarget [panel0] =
      { state := [panel0],
        replies := [{ action := notFoundAction msgNoTarget.action, path := msgNoTarget.path,
                      success := some false,
                      error := some "Target notebook is not open or not found." }],
        polls := 0 } :=
  no_target_immediate_failure env0 msgNoTarget [panel0] (by decide) (by decide)

/-- C6: deleting a cell id that does not exist in the open target
notebook produces exactly one failure reply whose error message names
the identifier, and leaves the tracker state (hence the notebook cell
list) unchanged. -/
theorem delete_missing_id_fails (env : Env) (msg : WsMessage) (st : List Panel)
    (panel : Panel) (cid : String)
    (hact : msg.action = some "delete-cell")
    (hp : strTruthy msg.path = true)
    (hcid : msg.cell_id = some cid)
    (hct : strTruthy msg.cell_id = true)
    (hfind : findInTracker st (panelMatches msg.path) = some panel)
    (hmodel : panel.modelPresent = true)
    (hmiss : findCellIdx msg.cell_id panel.cells = none) :
    onMessage env msg st =
      { state := st,
        replies := [{ action := "cell-deleted", path := msg.path, cell_id := msg.cell_id,
                      success := some false,
                      error := some ("Cell with ID " ++ cid ++ " not found") }],
        polls := 0 } := by
  rw [onMessage_dispatch env msg st panel (action_ne_open _ (by decide) msg hact) hfind,
      dispatch_delete env msg st panel hact hp hct]
  rw [hcid] at hmiss
  simp only [handleDelete, hfind, hcid, hmodel, hmiss]
  rfl

/-- Witness for C6 at a concrete input. -/
theorem delete_missing_id_fails_witness :
    onMessage env0 msgDeleteMissing [panel0] =
      { state := [panel0],
        replies := [{ action := "cell-deleted", path := msgDeleteMissing.path,
                      cell_id := msgDeleteMissing.cell_id,
                      success := some false,
                      error := some ("Cell with ID " ++ "nope" ++ " not found") }],
        polls := 0 } :=
  delete_missing_id_fails env0 msgDeleteMissing [panel0] panel0 "nope"
    rfl (by decide) rfl (by decide) (by decide) (by decide) (by decide)

/-- C7: executing a code cell while no kernel is attached (so the
10-second attach wait times out) yields the acknowledgement followed by
exactly one failure reply classified `ExecutionError` with message
`Kernel not available (timed out)`, the state is unchanged, and no reply
carries any outputs or execution count. -/
theorem execute_no_kernel_fails (env : Env) (msg : WsMessage) (st : List Panel)
    (panel : Panel) (i : Nat) (c : CellModel)
    (hact : msg.action = some "execute-cell")
    (hfind : findInTracker st (panelMatches msg.path) = some panel)
    (hcell : findCellIdx msg.cell_id panel.cells = some (i, c))
    (hcode : c.cell_type = "code")
    (hk : panel.hasKernel = false) :
    onMessage env msg st =
      { state := st,
        replies := [{ action := "cell-execution-acknowledged", path := msg.path,
                      cell_id := msg.cell_id },
                    { action := "cell-executed", path := msg.path, cell_id := msg.cell_id,
                      status := some "error", error_type := some "ExecutionError",
                      error_message := some "Kernel not available (timed out)" }],
        polls := 2 } ∧
    ∀ r ∈ (onMessage env msg st).replies, r.outputs = none ∧ r.execution_count = none := by
  have hred : onMessage env msg st =
      { state := st,
        replies := [{ action := "cell-execution-acknowledged", path := msg.path,
                      cell_id := msg.cell_id },
                    { action := "cell-executed", path := msg.path, cell_id := msg.cell_id,
                      status := some "error", error_type := some "ExecutionError",
                      error_message := some "Kernel not available (timed out)" }],
        polls := 2 } := by
    rw [onMessage_dispatch env msg st panel (action_ne_open _ (by decide) msg hact) hfind,
        dispatch_execute env msg st panel hact]
    simp only [handleExecute, hcell, hcode, hk]
    rfl
  refine ⟨hred, ?_⟩
  rw [hred]
  intro r hr
  simp only [List.mem_cons, List.not_mem_nil, or_false] at hr
  rcases hr with rfl | rfl
  · exact ⟨rfl, rfl⟩
  · exact ⟨rfl, rfl⟩

/-- Witness for C7 at a concrete input. -/
theorem execute_no_kernel_fails_witness :
    (onMessage env0 msgExecute [panelNoKernel] =
      { state := [panelNoKernel],
        replies := [{ action := "cell-execution-acknowledged", path := msgExecute.path,
                      cell_id := msgExecute.cell_id },
                    { action := "cell-executed", path := msgExecute.path,
                      cell_id := msgExecute.cell_id,
                      status := some "error", error_type := some "ExecutionError",
                      error_message := some "Kernel not available (timed out)" }],
        polls := 2 } ∧
    ∀ r ∈ (onMessage env0 msgExecute [panelNoKernel]).replies,
      r.outputs = none ∧ r.execution_count = none) :=
  execute_no_kernel_fails env0 msgExecute [panelNoKernel] panelNoKernel 0 cellA
    rfl (by decide) (by decide) rfl rfl

/-- C8: when any step after the snapshot fails, the smart reload is
exactly a plain revert: the cells are the fresh disk cells with no
executed marker, and viewport and active index are whatever the plain
revert leaves, i.e. no state restoration happens at all. -/
theorem reload_failure_falls_back (env : ReloadEnv) (p : Panel)
    (hfail : env.failAfterSnapshot = true) :
    smartReloadNotebook env p = plainRevert env p ∧
    (smartReloadNotebook env p).cells = env.diskCells.map clearExec ∧
    (∀ c ∈ (smartReloadNotebook env p).cells, c.wasExecuted = false) ∧
    (smartReloadNotebook env p).scrollTop = env.revertScroll ∧
    (smartReloadNotebook env p).activeCellIndex = env.revertActive := by
  have hred : smartReloadNotebook env p = plainRevert env p := by
    unfold smartReloadNotebook
    rw [hfail]
    rfl
  refine ⟨hred, by rw [hred]; rfl, ?_, by rw [hred]; rfl, by rw [hred]; rfl⟩
  rw [hred]
  intro c hc
  rcases List.mem_map.mp hc with ⟨c0, _, rfl⟩
  rfl

/-- Witness for C8 at a concrete input. -/
theorem reload_failure_falls_back_witness :
    smartReloadNotebook { reloadEnv1 with failAfterSnapshot := true } panel0 =
      plainRevert { reloadEnv1 with failAfterSnapshot := true } panel0 ∧
    (smartReloadNotebook { reloadEnv1 with failAfterSnapshot := true } panel0).cells =
      reloadEnv1.diskCells.map clearExec ∧
    (∀ c ∈ (smartReloadNotebook { reloadEnv1 with failAfterSnapshot := true } panel0).cells,
      c.wasExecuted = false) ∧
    (smartReloadNotebook { reloadEnv1 with failAfterSnapshot := true } panel0).scrollTop =
      reloadEnv1.revertScroll ∧
    (smartReloadNotebook { reloadEnv1 with failAfterSnapshot := true } panel0).activeCellIndex =
      reloadEnv1.revertActive :=
  reload_failure_falls_back { reloadEnv1 with failAfterSnapshot := true } panel0 rfl

/-- C10: a message carrying a truthy path but no action field, whose
path matches an open panel, is handled exactly like the same message
with action `reload`: the state change is the state-preserving reload
for that path and no reply is sent. -/
theorem no_action_behaves_as_reload (env : Env) (msg : WsMessage) (st : List Panel)
    (panel : Panel)
    (hact : msg.action = none) (hp : strTruthy msg.path = true)
    (hfind : findInTracker st (panelMatches msg.path) = some panel) :
    onMessage env msg st = onMessage env { msg with action := some "reload" } st ∧
    (onMessage env msg st).replies = [] ∧
    (onMessage env msg st).state = handleReloadAction (msg.path.getD "") env.reload st := by
  have h1 : onMessage env msg st =
      ⟨handleReloadAction (msg.path.getD "") env.reload st, [], 0⟩ := by
    rw [onMessage_dispatch env msg st panel
          (by rintro ⟨h, -⟩; rw [hact] at h; cases h) hfind,
        dispatch_noAction env msg st panel hact hp]
  have h2 : onMessage env { msg with action := some "reload" } st =
      ⟨handleReloadAction (msg.path.getD "") env.reload st, [], 0⟩ := by
    rw [onMessage_dispatch env { msg with action := some "reload" } st panel
          (action_ne_open _ (by decide) _ rfl) hfind,
        dispatch_reload env { msg with action := some "reload" } st panel rfl hp]
  rw [h1, h2]
  exact ⟨rfl, rfl, rfl⟩

/-- The cell-id predicate reads only the id, so changing a cell's source
does not change whether it matches. -/
lemma cellIdMatches_set_source (mcid : Option String) (c : CellModel) (v : String) :
    cellIdMatches mcid { c with source := v } = cellIdMatches mcid c := by
  cases mcid <;> rfl

/-- The insert verification predicate evaluated on the appended list. -/
lemma insertVerified_concat (cells : List CellModel) (nc : CellModel) (content : Option String) :
    insertVerified (cells ++ [nc]) cells.length content =
      (match content with
       | some c => nc.source == c
       | none => false) := by
  unfold insertVerified
  rw [List.get?_concat_length]

/-- C1: for each of the three mutation commands handled with the target
panel open (`insert-cell` unconditionally; `replace-cell` and
`delete-cell` with truthy path and cell id), exactly one reply is sent,
that reply either reports success or reports failure with an error
message, and whenever it reports success the stated post-condition
already holds in the tracker state returned together with the reply:
the inserted cell sits at the reported position (the prior cell count)
with exactly the requested source; the first cell with the replaced id
has the new content; no cell with the deleted id remains. -/
theorem mutation_success_is_verified (env : Env) (msg : WsMessage) (st : List Panel)
    (panel : Panel)
    (hfind : findInTracker st (panelMatches msg.path) = some panel) :
    (msg.action = some "insert-cell" →
      ∃ reply, (onMessage env msg st).replies = [reply] ∧
        (reply.success = some true ∨ (reply.success = some false ∧ reply.error ≠ none)) ∧
        (reply.success = some true →
          reply.position = some panel.cells.length ∧
          ∃ p2, findInTracker (onMessage env msg st).state (panelMatches msg.path) = some p2 ∧
            ∃ src cm, msg.content = some src ∧
              p2.cells.get? panel.cells.length = some cm ∧ cm.source = src)) ∧
    (msg.action = some "replace-cell" → strTruthy msg.path = true →
      strTruthy msg.cell_id = true →
      ∃ reply, (onMessage env msg st).replies = [reply] ∧
        (reply.success = some true ∨ (reply.success = some false ∧ reply.error ≠ none)) ∧
        (reply.success = some true →
          ∃ p2, findInTracker (onMessage env msg st).state (panelMatches msg.path) = some p2 ∧
            ∃ i cm, findCellIdx msg.cell_id p2.cells = some (i, cm) ∧
              cm.source = msg.content.getD "")) ∧
    (msg.action = some "delete-cell" → strTruthy msg.path = true →
      strTruthy msg.cell_id = true →
      ∃ reply, (onMessage env msg st).replies = [reply] ∧
        (reply.success = some true ∨ (reply.success = some false ∧ reply.error ≠ none)) ∧
        (reply.success = some true →
          ∃ p2, findInTracker (onMessage env msg st).state (panelMatches msg.path) = some p2 ∧
            ∀ cm ∈ p2.cells, cellIdMatches msg.cell_id cm = false)) := by
  have hpred : panelMatches msg.path panel = true := List.find?_some hfind
  refine ⟨?_, ?_, ?_⟩
  · -- insert-cell
    intro hact
    rw [onMessage_dispatch env msg st panel (action_ne_open _ (by decide) msg hact) hfind,
        dispatch_insert env msg st panel hact]
    cases hmp : panel.modelPresent with
    | false =>
      simp only [handleInsert, hmp]
      rw [if_pos (by trivial)]
      exact ⟨_, rfl, Or.inr ⟨rfl, by simp⟩,
        fun hs => absurd (Option.some.inj hs) (by decide)⟩
    | true =>
      simp only [handleInsert, hmp]
      rw [if_neg (by simp)]
      by_cases hv : insertVerified
          (panel.cells ++
            [{ id := env.freshCellId,
               cell_type := if msg.cell_type = some "markdown" then "markdown" else "code",
               source := msg.content.getD "",
               executionCount := none, outputs := [], wasExecuted := false }])
          panel.cells.length msg.content = true
      · rw [if_pos hv]
        refine ⟨_, rfl, Or.inl rfl, fun _ => ⟨rfl, ?_⟩⟩
        refine ⟨_, find?_updateFirstWith (panelMatches msg.path) _ st panel hfind
          (by rw [panelMatches_set_cells]; exact hpred), ?_⟩
        rw [insertVerified_concat] at hv
        cases hcontent : msg.content with
        | none => rw [hcontent] at hv; cases hv
        | some src =>
          rw [hcontent] at hv
          refine ⟨src, _, rfl, List.get?_concat_length _ _, ?_⟩
          exact eq_of_beq hv
      · rw [if_neg hv]
        exact ⟨_, rfl, Or.inr ⟨rfl, by simp⟩,
          fun hs => absurd (Option.some.inj hs) (by decide)⟩
  · -- replace-cell
    intro hact hp hc
    rw [onMessage_dispatch env msg st panel (action_ne_open _ (by decide) msg hact) hfind,
        dispatch_replace env msg st panel hact hp hc]
    simp only [handleReplace, hfind]
    cases hmp : panel.modelPresent with
    | false =>
      rw [if_pos rfl]
      exact ⟨_, rfl, Or.inr ⟨rfl, by simp⟩,
        fun hs => absurd (Option.some.inj hs) (by decide)⟩
    | true =>
      rw [if_neg (by decide)]
      cases hcell : findCellIdx msg.cell_id panel.cells with
      | none =>
        exact ⟨_, rfl, Or.inr ⟨rfl, by simp⟩,
          fun hs => absurd (Option.some.inj hs) (by decide)⟩
      | some pr =>
        obtain ⟨i, c⟩ := pr
        dsimp only
        obtain ⟨hget, hmatch⟩ := findCellIdx_some msg.cell_id panel.cells i c hcell
        by_cases hv : replaceVerified
            (panel.cells.set i { c with source := msg.content.getD "" }) i msg.content = true
        · rw [if_pos hv]
          refine ⟨_, rfl, Or.inl rfl, fun _ => ?_⟩
          refine ⟨_, find?_updateFirstWith (panelMatches msg.path) _ st panel hfind
            (by rw [panelMatches_set_cells]; exact hpred), ?_⟩
          refine ⟨i, { c with source := msg.content.getD "" }, ?_, rfl⟩
          exact findCellIdx_set msg.cell_id panel.cells i c hcell _
            (by rw [cellIdMatches_set_source]; exact hmatch)
        · rw [if_neg hv]
          exact ⟨_, rfl, Or.inr ⟨rfl, by simp⟩,
            fun hs => absurd (Option.some.inj hs) (by decide)⟩
  · -- delete-cell
    intro hact hp hc
    rw [onMessage_dispatch env msg st panel (action_ne_open _ (by decide) msg hact) hfind,
        dispatch_delete env msg st panel hact hp hc]
    simp only [handleDelete, hfind]
    cases hmp : panel.modelPresent with
    | false =>
      rw [if_pos rfl]
      exact ⟨_, rfl, Or.inr ⟨rfl, by simp⟩,
        fun hs => absurd (Option.some.inj hs) (by decide)⟩
    | true =>
      rw [if_neg (by decide)]
      cases hcell : findCellIdx msg.cell_id panel.cells with
      | none =>
        exact ⟨_, rfl, Or.inr ⟨rfl, by simp⟩,
          fun hs => absurd (Option.some.inj hs) (by decide)⟩
      | some pr =>
        obtain ⟨i, c⟩ := pr
        dsimp only
        by_cases hdel : ((panel.cells.eraseIdx i).all
            fun cm => !(cellIdMatches msg.cell_id cm)) = true
        · rw [if_pos hdel]
          refine ⟨_, rfl, Or.inl rfl, fun _ => ?_⟩
          refine ⟨_, find?_updateFirstWith (panelMatches msg.path) _ st panel hfind
            (by rw [panelMatches_set_cells]; exact hpred), ?_⟩
          intro cm hcm
          have := List.all_eq_true.mp hdel cm hcm
          simpa using this
        · rw [if_neg hdel]
          exact ⟨_, rfl, Or.inr ⟨rfl, by simp⟩,
            fun hs => absurd (Option.some.inj hs) (by decide)⟩

/-- Witness for C1 at a concrete input (a successful insert). -/
theorem mutation_success_is_verified_witness :
    ∃ reply, (onMessage env0 msgInsert [panel0]).replies = [reply] ∧
      (reply.success = some true ∨ (reply.success = some false ∧ reply.error ≠ none)) ∧
      (reply.success = some true →
        reply.position = some panel0.cells.length ∧
        ∃ p2, findInTracker (onMessage env0 msgInsert [panel0]).state
            (panelMatches msgInsert.path) = some p2 ∧
          ∃ src cm, msgInsert.content = some src ∧
            p2.cells.get? panel0.cells.length = some cm ∧ cm.source = src) :=
  (mutation_success_is_verified env0 msgInsert [panel0] panel0 (by decide)).1 rfl

/-- C2 counterexample: a `reload` command — an action of the action set,
with its target notebook open — produces zero replies, not exactly
one. -/
theorem reload_command_zero_replies_counterexample :
    (onMessage env0 msgReload [panel0]).replies = [] ∧
    (onMessage env0 msgReload [panel0]).replies.length ≠ 1 :=
  ⟨by decide, by decide⟩

/-- C2 amended: with the target panel open and its model present, the
number of messages sent per action is: `save` one exactly when
`waitForSave` is set; `get-cells` and `insert-cell` one; `execute-cell`
two (acknowledgement plus result) when the target cell is missing or is
a markdown or code cell, and only the acknowledgement otherwise;
`replace-cell` and `delete-cell` one when `path` and `cell_id` are
truthy; `close-notebook-tab` one when `path` is truthy; `reload` and
action-less messages zero. -/
theorem reply_count_per_action (env : Env) (msg : WsMessage) (st : List Panel) (panel : Panel)
    (hfind : findInTracker st (panelMatches msg.path) = some panel)
    (hmodel : panel.modelPresent = true) :
    (msg.action = some "save" →
      (onMessage env msg st).replies.length = if msg.waitForSave then 1 else 0) ∧
    (msg.action = some "get-cells" → (onMessage env msg st).replies.length = 1) ∧
    (msg.action = some "insert-cell" → (onMessage env msg st).replies.length = 1) ∧
    (msg.action = some "execute-cell" →
      (findCellIdx msg.cell_id panel.cells = none →
        (onMessage env msg st).replies.length = 2) ∧
      (∀ i c, findCellIdx msg.cell_id panel.cells = some (i, c) →
        ((c.cell_type = "markdown" ∨ c.cell_type = "code") →
          (onMessage env msg st).replies.length = 2) ∧
        (c.cell_type ≠ "markdown" → c.cell_type ≠ "code" →
          (onMessage env msg st).replies.length = 1))) ∧
    (msg.action = some "replace-cell" → strTruthy msg.path = true →
      strTruthy msg.cell_id = true → (onMessage env msg st).replies.length = 1) ∧
    (msg.action = some "delete-cell" → strTruthy msg.path = true →
      strTruthy msg.cell_id = true → (onMessage env msg st).replies.length = 1) ∧
    (msg.action = some "close-notebook-tab" → strTruthy msg.path = true →
      (onMessage env msg st).replies.length = 1) ∧
    (msg.action = some "reload" → strTruthy msg.path = true →
      (onMessage env msg st).replies.length = 0) ∧
    (msg.action = none → strTruthy msg.path = true →
      (onMessage env msg st).replies.length = 0) := by
  refine ⟨?_, ?_, ?_, ?_, ?_, ?_, ?_, ?_, ?_⟩
  · intro hact
    rw [onMessage_dispatch env msg st panel (action_ne_open _ (by decide) msg hact) hfind,
        dispatch_save env msg st panel hact]
    cases hws : msg.waitForSave <;> simp [handleSave, hws]
  · intro hact
    rw [onMessage_dispatch env msg st panel (action_ne_open _ (by decide) msg hact) hfind,
        dispatch_getCells env msg st panel hact]
    simp [handleGetCells, hmodel]
  · intro hact
    rw [onMessage_dispatch env msg st panel (action_ne_open _ (by decide) msg hact) hfind,
        dispatch_insert env msg st panel hact]
    simp only [handleInsert, hmodel]
    exact length_ite_replies _ _ _ rfl (length_ite_replies _ _ _ rfl rfl)
  · intro hact
    rw [onMessage_dispatch env msg st panel (action_ne_open _ (by decide) msg hact) hfind,
        dispatch_execute env msg st panel hact]
    constructor
    · intro hmiss
      simp only [handleExecute, hmiss]
      rfl
    · intro i c hcell
      constructor
      · rintro (hmd | hcode)
        · simp only [handleExecute, hcell, hmd]
          rfl
        · simp only [handleExecute, hcell, hcode]
          rcases hhk : panel.hasKernel with _ | _
          · rfl
          · cases env.execOutcome <;> rfl
      · intro hmd hcode
        simp only [handleExecute, hcell]
        rw [if_neg (by simpa using hmd), if_neg (by simpa using hcode)]
        rfl
  · intro hact hp hc
    rw [onMessage_dispatch env msg st panel (action_ne_open _ (by decide) msg hact) hfind,
        dispatch_replace env msg st panel hact hp hc]
    simp only [handleReplace, hfind, hmodel]
    rw [if_neg (show ¬(true = false) by decide)]
    cases hcell : findCellIdx msg.cell_id panel.cells with
    | none => rfl
    | some pr =>
      obtain ⟨i, c⟩ := pr
      exact length_ite_replies _ _ _ rfl rfl
  · intro hact hp hc
    rw [onMessage_dispatch env msg st panel (action_ne_open _ (by decide) msg hact) hfind,
        dispatch_delete env msg st panel hact hp hc]
    simp only [handleDelete, hfind, hmodel]
    rw [if_neg (show ¬(true = false) by decide)]
    cases hcell : findCellIdx msg.cell_id panel.cells with
    | none => rfl
    | some pr =>
      obtain ⟨i, c⟩ := pr
      exact length_ite_replies _ _ _ rfl rfl
  · intro hact hp
    rw [onMessage_dispatch env msg st panel (action_ne_open _ (by decide) msg hact) hfind,
        dispatch_close env msg st panel hact hp]
    simp only [handleClose, hfind]
    rfl
  · intro hact hp
    rw [onMessage_dispatch env msg st panel (action_ne_open _ (by decide) msg hact) hfind,
        dispatch_reload env msg st panel hact hp]
    rfl
  · intro hact hp
    rw [onMessage_dispatch env msg st panel
          (by rintro ⟨h, -⟩; rw [hact] at h; cases h) hfind,
        dispatch_noAction env msg st panel hact hp]
    rfl

/-- Witness for the amended C2 at a concrete input. -/
theorem reply_count_per_action_witness :
    (onMessage env0 msgGetCells [panel0]).replies.length = 1 :=
  (reply_count_per_action env0 msgGetCells [panel0] panel0 (by decide) rfl).2.1 rfl

/-- C9: every `insert-cell` command handled with the target panel open
and its model present appends the new cell at the end of the notebook —
at the index equal to the prior cell count — regardless of any
requested position carried by the message, and any success reply
reports that prior cell count as its `position`. -/
theorem insert_appends_at_end (env : Env) (msg : WsMessage) (st : List Panel) (panel : Panel)
    (hact : msg.action = some "insert-cell")
    (hfind : findInTracker st (panelMatches msg.path) = some panel)
    (hmodel : panel.modelPresent = true) :
    ∃ p2, findInTracker (onMessage env msg st).state (panelMatches msg.path) = some p2 ∧
      p2.cells = panel.cells ++
        [{ id := env.freshCellId,
           cell_type := if msg.cell_type = some "markdown" then "markdown" else "code",
           source := msg.content.getD "",
           executionCount := none, outputs := [], wasExecuted := false }] ∧
      ∀ r ∈ (onMessage env msg st).replies, r.success = some true →
        r.position = some panel.cells.length := by
  rw [onMessage_dispatch env msg st panel (action_ne_open _ (by decide) msg hact) hfind,
      dispatch_insert env msg st panel hact]
  have hpred : panelMatches msg.path panel = true := List.find?_some hfind
  simp only [handleInsert, hmodel]
  split
  · next hm => exact absurd hm (by decide)
  · repeat' split
    all_goals
      refine ⟨_, find?_updateFirstWith (panelMatches msg.path) _ st panel hfind
        (by rw [panelMatches_set_cells]; exact hpred), rfl, ?_⟩
    all_goals
      intro r hr hsucc
    all_goals
      simp only [List.mem_singleton] at hr
    all_goals
      subst hr
    all_goals
      first
        | rfl
        | exact absurd (Option.some.inj hsucc) (by decide)

/-- Witness for C9 at a concrete input. -/
theorem insert_appends_at_end_witness :
    ∃ p2, findInTracker (onMessage env0 msgInsert [panel0]).state
        (panelMatches msgInsert.path) = some p2 ∧
      p2.cells = panel0.cells ++
        [{ id := env0.freshCellId,
           cell_type := if msgInsert.cell_type = some "markdown" then "markdown" else "code",
           source := msgInsert.content.getD "",
           executionCount := none, outputs := [], wasExecuted := false }] ∧
      ∀ r ∈ (onMessage env0 msgInsert [panel0]).replies, r.success = some true →
        r.position = some panel0.cells.length :=
  insert_appends_at_end env0 msgInsert [panel0] panel0 rfl (by decide) rfl

/-- The restoration pass preserves the number of cells. -/
lemma restoreCells_length (states : List CellSnapshot) (i : Nat) (l : List CellModel) :
    (restoreCells states i l).length = l.length := by
  induction l generalizing i with
  | nil => rfl
  | cons c cs ih => simp [restoreCells, ih]

/-- The cell list produced by a successful smart reload is the
restoration pass over the fresh disk cells. -/
lemma smartReload_cells (env : ReloadEnv) (p : Panel) (hok : env.failAfterSnapshot = false) :
    (smartReloadNotebook env p).cells =
      restoreCells (p.cells.map snapshotCell) 0 ((plainRevert env p).cells) := by
  simp only [smartReloadNotebook, hok]
  rw [if_neg (by simp)]
  split <;> rfl

/-- The scroll offset is restored by a successful smart reload. -/
lemma smartReload_scrollTop (env : ReloadEnv) (p : Panel) (hok : env.failAfterSnapshot = false) :
    (smartReloadNotebook env p).scrollTop = p.scrollTop := by
  simp only [smartReloadNotebook, hok]
  rw [if_neg (by simp)]
  split <;> rfl

/-- The active cell index after a successful smart reload: the saved
index when it is in range for the reloaded list, the value the revert
left otherwise. -/
lemma smartReload_activeCellIndex (env : ReloadEnv) (p : Panel)
    (hok : env.failAfterSnapshot = false) :
    (smartReloadNotebook env p).activeCellIndex =
      (if 0 ≤ p.activeCellIndex ∧
          p.activeCellIndex <
            ((restoreCells (p.cells.map snapshotCell) 0 ((plainRevert env p).cells)).length : Int)
       then p.activeCellIndex else env.revertActive) := by
  simp only [smartReloadNotebook, hok]
  rw [if_neg (by simp)]
  split <;> rfl

/-- C3: a state-preserving reload that does not fail restores, for
every position whose prior cell was an executed code cell (non-null
execution count and non-empty outputs) and whose identity (id and kind)
is unchanged on disk, exactly the prior execution count and output list
onto the freshly loaded cell and marks it as previously executed; and a
reload with zero prior executions yields exactly the plain-reverted
cell list, restoring only the scroll offset and (when in range) the
active cell index. -/
theorem smartReload_restores_state (env : ReloadEnv) (p : Panel)
    (hok : env.failAfterSnapshot = false) :
    (∀ i c d k,
       p.cells.get? i = some c → c.cell_type = "code" → c.executionCount = some k →
       c.outputs ≠ [] → env.diskCells.get? i = some d → d.id = c.id →
       d.cell_type = c.cell_type →
       (smartReloadNotebook env p).cells.get? i =
         some { id := c.id, cell_type := "code", source := d.source,
                executionCount := some k, outputs := c.outputs, wasExecuted := true }) ∧
    ((∀ c ∈ p.cells, c.cell_type = "code" → c.executionCount = none ∧ c.outputs = []) →
       (smartReloadNotebook env p).cells = env.diskCells.map clearExec ∧
       (smartReloadNotebook env p).scrollTop = p.scrollTop ∧
       (smartReloadNotebook env p).activeCellIndex =
         (if 0 ≤ p.activeCellIndex ∧
             p.activeCellIndex < ((env.diskCells.map clearExec).length : Int)
          then p.activeCellIndex else env.revertActive)) := by
  constructor
  · intro i c d k hc hcode hcount houts hd hid hdct
    have hstates : (p.cells.map snapshotCell).get? i = some (snapshotCell c) := by
      rw [List.get?_map, hc]
      rfl
    have hsnap : snapshotCell c = ⟨some k, c.outputs, true⟩ := by
      unfold snapshotCell
      rw [if_pos hcode, hcount]
    have hrev : (plainRevert env p).cells.get? i = some (clearExec d) := by
      show (env.diskCells.map clearExec).get? i = _
      rw [List.get?_map, hd]
      rfl
    rw [smartReload_cells env p hok, restoreCells_get?, hrev]
    simp only [Option.map_some', Nat.zero_add]
    congr 1
    unfold restoreCell
    rw [hstates, hsnap]
    show (if (true : Bool) = true ∧ (clearExec d).cell_type = "code" then _ else _) = _
    rw [if_pos ⟨rfl, by show d.cell_type = "code"; rw [hdct, hcode]⟩]
    have hlen : (0 : Nat) < c.outputs.length := List.length_pos.mpr houts
    show (if Option.isSome (some k) = true ∧ c.outputs.length > 0 then _ else _) = _
    rw [if_pos ⟨rfl, hlen⟩]
    show ({ (if c.outputs.length > 0 then _ else _ : CellModel) with wasExecuted := true }) = _
    rw [if_pos hlen]
    show ({ id := d.id, cell_type := d.cell_type, source := d.source,
            executionCount := some k, outputs := c.outputs, wasExecuted := true } : CellModel) = _
    rw [hid, hdct, hcode]
  · intro hB
    have htriv : ∀ s ∈ p.cells.map snapshotCell, s.executionCount = none ∧ s.outputs = [] := by
      intro s hs
      rcases List.mem_map.mp hs with ⟨c, hcmem, rfl⟩
      unfold snapshotCell
      split
      · next hcode => exact hB c hcmem hcode
      · exact ⟨rfl, rfl⟩
    have hnoop := restoreCells_noop _ htriv 0 ((plainRevert env p).cells)
    refine ⟨?_, smartReload_scrollTop env p hok, ?_⟩
    · rw [smartReload_cells env p hok, hnoop]
      rfl
    · rw [smartReload_activeCellIndex env p hok, hnoop]
      rfl

/-- Witness for C3 at a concrete input: the executed cell keeps its
count and outputs across the reload. -/
theorem smartReload_restores_state_witness :
    (smartReloadNotebook reloadEnv1 panel0).cells.get? 0 =
      some { id := cellA.id, cell_type := "code",
             source := "new source",
             executionCount := some 1, outputs := cellA.outputs, wasExecuted := true } :=
  (smartReload_restores_state reloadEnv1 panel0 rfl).1 0 cellA
    { id := "cellA", cell_type := "code", source := "new source",
      executionCount := none, outputs := [] } 1
    rfl rfl rfl (by decide) rfl rfl rfl

/-- A reply that carries neither an `outputs` nor a `cells` field is
vacuously sanitised. -/
lemma replyOutputsProcessed_none (r : Reply) (h1 : r.outputs = none) (h2 : r.cells = none) :
    replyOutputsProcessed r := by
  constructor
  · intro outs h
    rw [h1] at h
    cases h
  · intro cds h
    rw [h2] at h
    cases h

/-- Every reply of the open branch is sanitised. -/
lemma handleOpen_processed (env : Env) (msg : WsMessage) (st : List Panel) :
    ∀ r ∈ (handleOpen env msg st).replies, replyOutputsProcessed r := by
  intro r hr
  unfold handleOpen at hr
  cases ho : env.openThrow with
  | some e =>
    rw [ho] at hr
    dsimp only at hr
    simp only [List.mem_singleton] at hr
    subst hr
    exact replyOutputsProcessed_none _ rfl rfl
  | none =>
    rw [ho] at hr
    dsimp only at hr
    split at hr <;>
      (simp only [List.mem_singleton] at hr; subst hr;
       exact replyOutputsProcessed_none _ rfl rfl)

/-- Every reply of the save branch is sanitised. -/
lemma handleSave_processed (msg : WsMessage) (st : List Panel) :
    ∀ r ∈ (handleSave msg st).replies, replyOutputsProcessed r := by
  intro r hr
  unfold handleSave at hr
  by_cases hw : msg.waitForSave = true
  · rw [if_pos hw] at hr
    simp only [List.mem_singleton] at hr
    subst hr
    exact replyOutputsProcessed_none _ rfl rfl
  · rw [if_neg hw] at hr
    cases hr

/-- Every reply of the get-cells branch is sanitised: cell outputs are
passed through `processCellOutputsForLLM`. -/
lemma handleGetCells_processed (msg : WsMessage) (st : List Panel) (panel : Panel) :
    ∀ r ∈ (handleGetCells msg st panel).replies, replyOutputsProcessed r := by
  intro r hr
  unfold handleGetCells at hr
  by_cases hm : panel.modelPresent = false
  · rw [if_pos hm] at hr
    simp only [List.mem_singleton] at hr
    subst hr
    exact replyOutputsProcessed_none _ rfl rfl
  · rw [if_neg hm] at hr
    simp only [List.mem_singleton] at hr
    subst hr
    constructor
    · intro outs h
      cases h
    · intro cds h cd hcd outs houts
      obtain rfl : panel.cells.map mkCellData = cds := Option.some.inj h
      rcases List.mem_map.mp hcd with ⟨c, _, rfl⟩
      unfold mkCellData at houts
      by_cases hcode : c.cell_type = "code"
      · rw [if_pos hcode] at houts
        exact ⟨c.outputs, (Option.some.inj houts).symm⟩
      · rw [if_neg hcode] at houts
        cases houts

/-- Every reply of the insert branch is sanitised. -/
lemma handleInsert_processed (env : Env) (msg : WsMessage) (st : List Panel) (panel : Panel) :
    ∀ r ∈ (handleInsert env msg st panel).replies, replyOutputsProcessed r := by
  intro r hr
  unfold handleInsert at hr
  by_cases hm : panel.modelPresent = false
  · rw [if_pos hm] at hr
    simp only [List.mem_singleton] at hr
    subst hr
    exact replyOutputsProcessed_none _ rfl rfl
  · rw [if_neg hm] at hr
    by_cases hv : insertVerified
        (panel.cells ++
          [{ id := env.freshCellId,
             cell_type := if msg.cell_type = some "markdown" then "markdown" else "code",
             source := msg.content.getD "",
             executionCount := none, outputs := [], wasExecuted := false }])
        panel.cells.length msg.content = true
    · rw [if_pos hv] at hr
      simp only [List.mem_singleton] at hr
      subst hr
      exact replyOutputsProcessed_none _ rfl rfl
    · rw [if_neg hv] at hr
      simp only [List.mem_singleton] at hr
      subst hr
      exact replyOutputsProcessed_none _ rfl rfl

/-- Every reply of the execute branch is sanitised: execution outputs
are passed through `processCellOutputsForLLM`. -/
lemma handleExecute_processed (env : Env) (msg : WsMessage) (st : List Panel) (panel : Panel) :
    ∀ r ∈ (handleExecute env msg st panel).replies, replyOutputsProcessed r := by
  intro r hr
  unfold handleExecute at hr
  cases hcell : findCellIdx msg.cell_id panel.cells with
  | none =>
    rw [hcell] at hr
    simp only [List.mem_cons, List.not_mem_nil, or_false] at hr
    rcases hr with rfl | rfl
    · exact replyOutputsProcessed_none _ rfl rfl
    · exact replyOutputsProcessed_none _ rfl rfl
  | some pr =>
    obtain ⟨i, c⟩ := pr
    rw [hcell] at hr
    dsimp only at hr
    by_cases hmd : c.cell_type = "markdown"
    · rw [if_pos hmd] at hr
      simp only [List.mem_cons, List.not_mem_nil, or_false] at hr
      rcases hr with rfl | rfl
      · exact replyOutputsProcessed_none _ rfl rfl
      · constructor
        · intro outs h
          exact ⟨[], (Option.some.inj h).symm⟩
        · intro cds h
          cases h
    · rw [if_neg hmd] at hr
      by_cases hcode : c.cell_type = "code"
      · rw [if_pos hcode] at hr
        by_cases hk : panel.hasKernel = false
        · rw [if_pos hk] at hr
          simp only [List.mem_cons, List.not_mem_nil, or_false] at hr
          rcases hr with rfl | rfl
          · exact replyOutputsProcessed_none _ rfl rfl
          · exact replyOutputsProcessed_none _ rfl rfl
        · rw [if_neg hk] at hr
          cases hexec : env.execOutcome with
          | ok outs cnt =>
            rw [hexec] at hr
            dsimp only at hr
            simp only [List.mem_cons, List.not_mem_nil, or_false] at hr
            rcases hr with rfl | rfl
            · exact replyOutputsProcessed_none _ rfl rfl
            · constructor
              · intro outs2 h
                exact ⟨outs, (Option.some.inj h).symm⟩
              · intro cds h
                cases h
          | returnedFalse =>
            rw [hexec] at hr
            dsimp only at hr
            simp only [List.mem_cons, List.not_mem_nil, or_false] at hr
            rcases hr with rfl | rfl <;> exact replyOutputsProcessed_none _ rfl rfl
          | threw m =>
            rw [hexec] at hr
            dsimp only at hr
            simp only [List.mem_cons, List.not_mem_nil, or_false] at hr
            rcases hr with rfl | rfl <;> exact replyOutputsProcessed_none _ rfl rfl
      · rw [if_neg hcode] at hr
        simp only [List.mem_singleton] at hr
        subst hr
        exact replyOutputsProcessed_none _ rfl rfl

/-- Every reply of the replace branch is sanitised. -/
lemma handleReplace_processed (msg : WsMessage) (st : List Panel) :
    ∀ r ∈ (handleReplace msg st).replies, replyOutputsProcessed r := by
  intro r hr
  unfold handleReplace at hr
  cases hfind : findInTracker st (panelMatches msg.path) with
  | none =>
    rw [hfind] at hr
    simp only [List.mem_singleton] at hr
    subst hr
    exact replyOutputsProcessed_none _ rfl rfl
  | some panel =>
    rw [hfind] at hr
    dsimp only at hr
    by_cases hm : panel.modelPresent = false
    · rw [if_pos hm] at hr
      simp only [List.mem_singleton] at hr
      subst hr
      exact replyOutputsProcessed_none _ rfl rfl
    · rw [if_neg hm] at hr
      cases hcell : findCellIdx msg.cell_id panel.cells with
      | none =>
        rw [hcell] at hr
        simp only [List.mem_singleton] at hr
        subst hr
        exact replyOutputsProcessed_none _ rfl rfl
      | some pr =>
        obtain ⟨i, c⟩ := pr
        rw [hcell] at hr
        dsimp only at hr
        split at hr <;>
          (simp only [List.mem_singleton] at hr; subst hr;
           exact replyOutputsProcessed_none _ rfl rfl)

/-- Every reply of the delete branch is sanitised. -/
lemma handleDelete_processed (msg : WsMessage) (st : List Panel) :
    ∀ r ∈ (handleDelete msg st).replies, replyOutputsProcessed r := by
  intro r hr
  unfold handleDelete at hr
  cases hfind : findInTracker st (panelMatches msg.path) with
  | none =>
    rw [hfind] at hr
    simp only [List.mem_singleton] at hr
    subst hr
    exact replyOutputsProcessed_none _ rfl rfl
  | some panel =>
    rw [hfind] at hr
    dsimp only at hr
    by_cases hm : panel.modelPresent = false
    · rw [if_pos hm] at hr
      simp only [List.mem_singleton] at hr
      subst hr
      exact replyOutputsProcessed_none _ rfl rfl
    · rw [if_neg hm] at hr
      cases hcell : findCellIdx msg.cell_id panel.cells with
      | none =>
        rw [hcell] at hr
        simp only [List.mem_singleton] at hr
        subst hr
        exact replyOutputsProcessed_none _ rfl rfl
      | some pr =>
        obtain ⟨i, c⟩ := pr
        rw [hcell] at hr
        dsimp only at hr
        split at hr <;>
          (simp only [List.mem_singleton] at hr; subst hr;
           exact replyOutputsProcessed_none _ rfl rfl)

/-- Every reply of the close branch is sanitised. -/
lemma handleClose_processed (msg : WsMessage) (st : List Panel) :
    ∀ r ∈ (handleClose msg st).replies, replyOutputsProcessed r := by
  intro r hr
  unfold handleClose at hr
  cases hfind : findInTracker st (panelMatches msg.path) with
  | none =>
    rw [hfind] at hr
    simp only [List.mem_singleton] at hr
    subst hr
    exact replyOutputsProcessed_none _ rfl rfl
  | some panel =>
    rw [hfind] at hr
    simp only [List.mem_singleton] at hr
    subst hr
    exact replyOutputsProcessed_none _ rfl rfl

/-- Every reply the handler ever sends is sanitised. -/
lemma onMessage_processed (env : Env) (msg : WsMessage) (st : List Panel) :
    ∀ r ∈ (onMessage env msg st).replies, replyOutputsProcessed r := by
  unfold onMessage
  split
  · exact handleOpen_processed env msg st
  · cases hfind : findInTracker st (panelMatches msg.path) with
    | none =>
      intro r hr
      simp only [List.mem_singleton] at hr
      subst hr
      exact replyOutputsProcessed_none _ rfl rfl
    | some panel =>
      show ∀ r ∈ (dispatch env msg st panel).replies, replyOutputsProcessed r
      unfold dispatch
      repeat' split
      all_goals first
        | exact handleSave_processed msg st
        | exact handleGetCells_processed msg st panel
        | exact handleInsert_processed env msg st panel
        | exact handleExecute_processed env msg st panel
        | exact handleReplace_processed msg st
        | exact handleDelete_processed msg st
        | exact handleClose_processed msg st
        | (intro r hr; cases hr)

/-- C4 counterexample: an output whose `output_type` is not
`display_data` or `execute_result` (here a `stream` output) keeps an
image-typed data entry untouched, so the raw payload `RAW` appears
verbatim in a `get-cells` reply instead of the placeholder built from
its media type and byte length. -/
theorem image_passthrough_counterexample :
    (onMessage env0 msgGetCells [panel0]).replies =
      [{ action := "cells-data", path := some "nb.ipynb",
         cells := some [{ cell_id := "cellA", cell_type := "code", content := "1+1",
                          outputs := some [{ output_type := "stream",
                                             data := [("image/png", "RAW")] }],
                          execution_count := some (some 1) }] }] ∧
    "RAW" ≠ placeholderFor "image/png" (String.utf8ByteSize "RAW") :=
  ⟨by decide, by decide⟩

/-- C4 amended: every outputs list carried by any reply (the `outputs`
field and the `outputs` of each `cells` entry) is the image of
`processCellOutputsForLLM`, and that processing satisfies the
truncation specification: within `display_data` and `execute_result`
outputs every image-typed data entry is replaced by the placeholder
carrying its media type and original UTF-8 byte length, while all other
outputs and entries pass through unchanged. -/
theorem outputs_truncated_amended :
    (∀ env msg st r, r ∈ (onMessage env msg st).replies → replyOutputsProcessed r) ∧
    (∀ raw, truncationSpec raw (processCellOutputsForLLM raw)) := by
  constructor
  · intro env msg st
    exact onMessage_processed env msg st
  · intro raw
    constructor
    · simp [processCellOutputsForLLM]
    · intro i o o2 ho ho2
      rw [processCellOutputsForLLM, List.get?_map, ho] at ho2
      obtain rfl : processOutput o = o2 := Option.some.inj ho2
      unfold processOutput
      by_cases htype : o.output_type = "display_data" ∨ o.output_type = "execute_result"
      · rw [if_pos htype]
        refine ⟨rfl, rfl, by simp, ?_⟩
        intro j q q2 hq hq2
        simp only [List.get?_map, hq, Option.map_some'] at hq2
        obtain rfl :
            (if strStartsWith q.1 "image/" = true then
               (q.1, placeholderFor q.1 q.2.utf8ByteSize) else q) = q2 :=
          Option.some.inj hq2
        constructor
        · rintro ⟨-, himg⟩
          rw [if_pos himg]
        · intro hneg
          have himg : ¬ strStartsWith q.1 "image/" = true := fun h => hneg ⟨htype, h⟩
          rw [if_neg himg]
      · rw [if_neg htype]
        refine ⟨rfl, rfl, rfl, ?_⟩
        intro j q q2 hq hq2
        rw [hq] at hq2
        obtain rfl : q = q2 := Option.some.inj hq2
        constructor
        · rintro ⟨ht, -⟩
          exact absurd ht htype
        · intro _
          rfl

/-- Witness for the amended C4 at a concrete input: the reply of
`get-cells` on the display-image panel is sanitised. -/
theorem outputs_truncated_amended_witness :
    replyOutputsProcessed
      { action := "cells-data", path := some "img.ipynb",
        cells := some [{ cell_id := "cellB", cell_type := "code", content := "plot",
                         outputs := some (processCellOutputsForLLM [displayImageOutput]),
                         execution_count := some (some 2) }] } :=
  outputs_truncated_amended.1 env0 msgGetCellsImg [panelImg] _ (by decide)

/-- Witness for C10 at a concrete input. -/
theorem no_action_behaves_as_reload_witness :
    onMessage env0 msgNoAction [panel0] =
      onMessage env0 { msgNoAction with action := some "reload" } [panel0] ∧
    (onMessage env0 msgNoAction [panel0]).replies = [] ∧
    (onMessage env0 msgNoAction [panel0]).state =
      handleReloadAction (msgNoAction.path.getD "") env0.reload [panel0] :=
  no_action_behaves_as_reload env0 msgNoAction [panel0] panel0 rfl rfl (by decide)

end Hotreload
